import Mathlib

/-!
# Titration simulator (`src/script.js`)

A shallow embedding of the pH engine (`calculatePH`, `calculateEquivalencePoint`,
`getSolutionColor`) and of the session state the script keeps in module-level variables
(`initialize`, `updateTitrationType`, `updateDisplay`, `animate`, `addBase` and the click
handlers).

Number model.  JavaScript numbers are modelled by the elements of a linearly ordered
field `α` with exact arithmetic; `Math.log10` and `Math.sqrt` are the two fields of a
`MathLib α` that every function using them takes as its first argument, so the program text
reads `Math.log10 x` as in the source.  For the statements that depend on what a logarithm
or a square root is, `α` is `ℝ` and `Math` is `realMath`.  IEEE-754 rounding, `NaN` and the
infinities are not part of the model.

State model.  The script's `let` variables are the fields of `State`.  The DOM (buttons,
text nodes, the SVG curve) and the handle returned by `requestAnimationFrame` are outside
the model: `initializeSVG`, `appendSVGElement` and `updateGraph` only write to the DOM and
are therefore omitted, and the DOM writes inside the other functions are dropped.
-/

namespace Titration

/-- The functions of JavaScript's global `Math` object that the script calls
(`Math.min` is the order's `min`). -/
structure MathLib (α : Type) where
  /-- `Math.log10`. -/
  log10 : α → α
  /-- `Math.sqrt`. -/
  sqrt : α → α

/-- The values of `simulationType`: the three option strings the `switch` statements
name, and `other` for any string that falls through to `default`. -/
inductive SimulationType where
  | strongAcidStrongBase
  | weakAcidStrongBase
  | strongAcidWeakBase
  | other
  deriving DecidableEq

/-- The object `concentration = { acid, base }` (mol/L). -/
structure Concentration (α : Type) where
  acid : α
  base : α
  deriving DecidableEq

/-- The object `volume = { acid, base }` (mL). -/
structure Volume (α : Type) where
  acid : α
  base : α
  deriving DecidableEq

/-- A curve sample `{ volume, pH }`, the shape of the entries of `data` and of
`lastPoint`. -/
structure Point (α : Type) where
  volume : α
  pH : α
  deriving DecidableEq

/-- The object `info = { acid, base, color }`. -/
structure Info where
  acid : String
  base : String
  color : String
  deriving DecidableEq

/-- The script's state variables (lines 7-26); `null` is `none`. -/
structure State (α : Type) where
  simulationType : SimulationType
  concentration : Concentration α
  volume : Volume α
  running : Bool
  speed : α
  pH : α
  data : Array (Point α)
  equivalencePoint : Option α
  lastPoint : Option (Point α)
  info : Info

section Program

variable {α : Type} [LinearOrderedField α]

/-- Ka of ethanoic acid. -/
def KA_ETHANOIC : α := 1.8e-5

/-- Kb of ammonia. -/
def KB_AMMONIA : α := 1.8e-5

/-- Water dissociation constant. -/
def KW : α := 1.0e-14

/-- Base added per frame is `baseAddedInterval * speed` mL. -/
def baseAddedInterval : α := 0.1

/-- The state the script's declarations set up before `initialize()` first runs. -/
def initialState : State α where
  simulationType := .strongAcidStrongBase
  concentration := { acid := 0.1, base := 0.1 }
  volume := { acid := 25, base := 0 }
  running := false
  speed := 10
  pH := 0
  data := #[]
  equivalencePoint := none
  lastPoint := none
  info := { acid := "HCl (strong acid)", base := "NaOH (strong base)", color := "#f8f9fa" }

/-- Function `updateTitrationType` (lines 169-195): the `switch` has no `default`, so an
unknown type leaves `info` as it is. -/
def updateTitrationType (s : State α) : State α :=
  match s.simulationType with
  | .strongAcidStrongBase =>
    { s with info := { acid := "HCl (strong acid)", base := "NaOH (strong base)",
                       color := "#f8f9fa" } }
  | .weakAcidStrongBase =>
    { s with info := { acid := "CH₃COOH (weak acid)", base := "NaOH (strong base)",
                       color := "#f8f9fa" } }
  | .strongAcidWeakBase =>
    { s with info := { acid := "HCl (strong acid)", base := "NH₃ (weak base)",
                       color := "#f8f9fa" } }
  | .other => s

/-- Function `calculatePH(acidVol, baseVol)` (lines 198-271); it reads the globals
`concentration` and `simulationType`. -/
def calculatePH (Math : MathLib α) (s : State α) (acidVol baseVol : α) : α :=
  let nAcid := (acidVol / 1000) * s.concentration.acid
  let nBase := (baseVol / 1000) * s.concentration.base
  let totalVolume := (acidVol + baseVol) / 1000
  match s.simulationType with
  | .strongAcidStrongBase =>
    if nAcid > nBase then
      let excessH := nAcid - nBase
      let cH := excessH / totalVolume;
      -Math.log10 cH
    else if nAcid < nBase then
      let excessOH := nBase - nAcid
      let cOH := excessOH / totalVolume
      let cH := KW / cOH;
      -Math.log10 cH
    else
      7
  | .weakAcidStrongBase =>
    if nAcid > nBase then
      if baseVol > 0 then
        let cHA := (nAcid - nBase) / totalVolume
        let cA := nBase / totalVolume;
        -Math.log10 KA_ETHANOIC + Math.log10 (cA / cHA)
      else
        let cHA := nAcid / totalVolume;
        -Math.log10 (Math.sqrt (KA_ETHANOIC * cHA))
    else if nAcid < nBase then
      let excessOH := nBase - nAcid
      let cOH := excessOH / totalVolume
      let cH := KW / cOH;
      -Math.log10 cH
    else
      let cA := nAcid / totalVolume
      let cOH := Math.sqrt (KW * cA / KA_ETHANOIC)
      let cH := KW / cOH;
      -Math.log10 cH
  | .strongAcidWeakBase =>
    if nAcid > nBase then
      let excessH := nAcid - nBase
      let cH := excessH / totalVolume;
      -Math.log10 cH
    else if nAcid < nBase then
      let cB := (nBase - nAcid) / totalVolume
      let cBH := nAcid / totalVolume
      let cOH := KB_AMMONIA * cB / cBH
      let cH := KW / cOH;
      -Math.log10 cH
    else
      let cBH := nAcid / totalVolume
      let cH := Math.sqrt (KW * cBH / KB_AMMONIA);
      -Math.log10 cH
  | .other => 7

/-- Function `calculateEquivalencePoint()` (lines 274-279). -/
def calculateEquivalencePoint (s : State α) : α :=
  let molesAcid := (s.volume.acid / 1000) * s.concentration.acid
  let baseVolume := (molesAcid / s.concentration.base) * 1000
  baseVolume

/-- Function `getSolutionColor(pH)` (lines 282-289). -/
def getSolutionColor (pH : α) : String :=
  if pH < 4 then "#ff7f7f"
  else if pH < 6 then "#ffb997"
  else if pH ≥ 6 ∧ pH ≤ 8 then "#da70d6"
  else if pH > 8 ∧ pH < 11 then "#a1caf1"
  else "#7fb3ff"

/-- JavaScript's `!equivalencePoint`: `null` and `0` are falsy, every other number of the
model is truthy. -/
def notTruthy (equivalencePoint : Option α) : Bool :=
  match equivalencePoint with
  | none => true
  | some x => decide (x = 0)

/-- Function `updateDisplay` (lines 292-323): apart from DOM writes it latches the
equivalence point. -/
def updateDisplay (s : State α) : State α :=
  let eqPoint := calculateEquivalencePoint s
  if s.volume.base ≥ eqPoint ∧ notTruthy s.equivalencePoint = true then
    { s with equivalencePoint := some eqPoint }
  else
    s

/-- Function `initialize` (lines 147-166); the name is a keyword of Lean, hence the
longer one here.  `initializeSVG` and `updateGraph` only draw. -/
def initializeSimulator (Math : MathLib α) (s : State α) : State α :=
  let s := { s with volume := { acid := 25, base := 0 }, data := #[], pH := 0,
                    equivalencePoint := none, lastPoint := none }
  let s := updateTitrationType s
  let s := updateDisplay s
  let initialPH := calculatePH Math s s.volume.acid 0
  let s := { s with pH := initialPH, data := #[{ volume := 0, pH := initialPH }],
                    lastPoint := some { volume := 0, pH := initialPH } }
  let s := updateDisplay s
  s

/-- Function `animate` (lines 362-393), one frame. -/
def animate (Math : MathLib α) (s : State α) : State α :=
  if s.running then
    let newBaseVolume := min (s.volume.base + baseAddedInterval * s.speed) 50
    let s := if newBaseVolume ≥ 50 then { s with running := false } else s
    let s := { s with volume := { s.volume with base := newBaseVolume } }
    let pH := calculatePH Math s s.volume.acid s.volume.base
    let s := { s with pH := pH, info := { s.info with color := getSolutionColor pH } }
    let s := { s with data := s.data.push { volume := s.volume.base, pH := pH },
                      lastPoint := some { volume := s.volume.base, pH := pH } }
    let s := updateDisplay s
    s
  else
    s

/-- Function `addBase(amount)` (lines 475-497). -/
def addBase (Math : MathLib α) (s : State α) (amount : α) : State α :=
  let newBaseVolume := min (s.volume.base + amount) 50
  let s := { s with volume := { s.volume with base := newBaseVolume } }
  let pH := calculatePH Math s s.volume.acid s.volume.base
  let s := { s with pH := pH, info := { s.info with color := getSolutionColor pH } }
  let s := { s with data := s.data.push { volume := s.volume.base, pH := pH },
                    lastPoint := some { volume := s.volume.base, pH := pH } }
  let s := updateDisplay s
  s

/-- A division whose divisor is zero has no finite result (`Infinity` or `NaN` in the
source language): the checked variant reports it as `none`. -/
def checkedDiv (x y : α) : Option α :=
  if y = 0 then none else some (x / y)

/-- The checked `Math.sqrt`: a negative argument (`NaN` in the source language) is
`none`. -/
def checkedSqrt (Math : MathLib α) (x : α) : Option α :=
  if x < 0 then none else some (Math.sqrt x)

/-- The checked `Math.log10`: an argument that is not strictly positive (`-Infinity` or
`NaN` in the source language) is `none`. -/
def checkedLog10 (Math : MathLib α) (x : α) : Option α :=
  if x ≤ 0 then none else some (Math.log10 x)

/-- The body of `calculatePH` (lines 198-271) statement by statement, with every
division, square root and logarithm replaced by its checked variant: the result is `none`
as soon as one operation of the executed branch is applied outside its domain. -/
def calculatePHChecked (Math : MathLib α) (s : State α) (acidVol baseVol : α) :
    Option α := do
  let nAcid := (← checkedDiv acidVol 1000) * s.concentration.acid
  let nBase := (← checkedDiv baseVol 1000) * s.concentration.base
  let totalVolume ← checkedDiv (acidVol + baseVol) 1000
  match s.simulationType with
  | .strongAcidStrongBase =>
    if nAcid > nBase then
      let excessH := nAcid - nBase
      let cH ← checkedDiv excessH totalVolume
      return -(← checkedLog10 Math cH)
    else if nAcid < nBase then
      let excessOH := nBase - nAcid
      let cOH ← checkedDiv excessOH totalVolume
      let cH ← checkedDiv KW cOH
      return -(← checkedLog10 Math cH)
    else
      return 7
  | .weakAcidStrongBase =>
    if nAcid > nBase then
      if baseVol > 0 then
        let cHA ← checkedDiv (nAcid - nBase) totalVolume
        let cA ← checkedDiv nBase totalVolume
        return -(← checkedLog10 Math KA_ETHANOIC) + (← checkedLog10 Math (← checkedDiv cA cHA))
      else
        let cHA ← checkedDiv nAcid totalVolume
        return -(← checkedLog10 Math (← checkedSqrt Math (KA_ETHANOIC * cHA)))
    else if nAcid < nBase then
      let excessOH := nBase - nAcid
      let cOH ← checkedDiv excessOH totalVolume
      let cH ← checkedDiv KW cOH
      return -(← checkedLog10 Math cH)
    else
      let cA ← checkedDiv nAcid totalVolume
      let cOH ← checkedSqrt Math (← checkedDiv (KW * cA) KA_ETHANOIC)
      let cH ← checkedDiv KW cOH
      return -(← checkedLog10 Math cH)
  | .strongAcidWeakBase =>
    if nAcid > nBase then
      let excessH := nAcid - nBase
      let cH ← checkedDiv excessH totalVolume
      return -(← checkedLog10 Math cH)
    else if nAcid < nBase then
      let cB ← checkedDiv (nBase - nAcid) totalVolume
      let cBH ← checkedDiv nAcid totalVolume
      let cOH ← checkedDiv (KB_AMMONIA * cB) cBH
      let cH ← checkedDiv KW cOH
      return -(← checkedLog10 Math cH)
    else
      let cBH ← checkedDiv nAcid totalVolume
      let cH ← checkedSqrt Math (← checkedDiv (KW * cBH) KB_AMMONIA)
      return -(← checkedLog10 Math cH)
  | .other => return 7

end Program

/-- `Math.log10` and `Math.sqrt` over the real numbers. -/
noncomputable def realMath : MathLib ℝ where
  log10 := Real.logb 10
  sqrt := Real.sqrt

/-! ## The equivalence volume -/

section Equivalence

variable {α : Type} [LinearOrderedField α]

end Equivalence

/-! ## The session: `addBase`, `animate`, `initialize` -/

section Session

variable {α : Type} [LinearOrderedField α]

/-- `calculatePH` reads only `simulationType` and `concentration` from the state. -/
theorem calculatePH_congr (Math : MathLib α) (s t : State α)
    (h1 : s.simulationType = t.simulationType) (h2 : s.concentration = t.concentration)
    (acidVol baseVol : α) :
    calculatePH Math s acidVol baseVol = calculatePH Math t acidVol baseVol := by
  unfold calculatePH
  rw [h1, h2]

/-- `updateDisplay` changes no variable but `equivalencePoint`. -/
theorem updateDisplay_frame (s : State α) :
    (updateDisplay s).simulationType = s.simulationType
      ∧ (updateDisplay s).concentration = s.concentration
      ∧ (updateDisplay s).volume = s.volume
      ∧ (updateDisplay s).running = s.running
      ∧ (updateDisplay s).speed = s.speed
      ∧ (updateDisplay s).pH = s.pH
      ∧ (updateDisplay s).data = s.data
      ∧ (updateDisplay s).lastPoint = s.lastPoint
      ∧ (updateDisplay s).info = s.info := by
  simp only [updateDisplay]
  split_ifs <;> simp

/-- What `addBase(amount)` writes to each variable it touches. -/
theorem addBase_fields (Math : MathLib α) (s : State α) (amount : α) :
    (addBase Math s amount).volume
        = { acid := s.volume.acid, base := min (s.volume.base + amount) 50 }
      ∧ (addBase Math s amount).pH
        = calculatePH Math s s.volume.acid (min (s.volume.base + amount) 50)
      ∧ (addBase Math s amount).data
        = s.data.push { volume := min (s.volume.base + amount) 50,
                        pH := calculatePH Math s s.volume.acid
                                (min (s.volume.base + amount) 50) }
      ∧ (addBase Math s amount).lastPoint
        = some { volume := min (s.volume.base + amount) 50,
                 pH := calculatePH Math s s.volume.acid
                         (min (s.volume.base + amount) 50) }
      ∧ (addBase Math s amount).simulationType = s.simulationType
      ∧ (addBase Math s amount).concentration = s.concentration := by
  simp only [addBase]
  refine ⟨?_, ?_, ?_, ?_, ?_, ?_⟩
  · rw [(updateDisplay_frame _).2.2.1]
  · rw [(updateDisplay_frame _).2.2.2.2.2.1]
    exact calculatePH_congr Math _ _ rfl rfl _ _
  · rw [(updateDisplay_frame _).2.2.2.2.2.2.1]
    congr 2
  · rw [(updateDisplay_frame _).2.2.2.2.2.2.2.1]
    congr 2
  · rw [(updateDisplay_frame _).1]
  · rw [(updateDisplay_frame _).2.1]

/-- What one frame of `animate` writes to each variable it touches while `running` is
set. -/
theorem animate_fields (Math : MathLib α) (s : State α) (hr : s.running = true) :
    (animate Math s).volume
        = { acid := s.volume.acid,
            base := min (s.volume.base + baseAddedInterval * s.speed) 50 }
      ∧ (animate Math s).pH
        = calculatePH Math s s.volume.acid
            (min (s.volume.base + baseAddedInterval * s.speed) 50)
      ∧ (animate Math s).data
        = s.data.push { volume := min (s.volume.base + baseAddedInterval * s.speed) 50,
                        pH := calculatePH Math s s.volume.acid
                                (min (s.volume.base + baseAddedInterval * s.speed) 50) }
      ∧ (animate Math s).lastPoint
        = some { volume := min (s.volume.base + baseAddedInterval * s.speed) 50,
                 pH := calculatePH Math s s.volume.acid
                         (min (s.volume.base + baseAddedInterval * s.speed) 50) }
      ∧ (animate Math s).simulationType = s.simulationType
      ∧ (animate Math s).concentration = s.concentration := by
  simp only [animate, hr, if_true]
  refine ⟨?_, ?_, ?_, ?_, ?_, ?_⟩
  · rw [(updateDisplay_frame _).2.2.1]
    split_ifs <;> rfl
  · rw [(updateDisplay_frame _).2.2.2.2.2.1]
    split_ifs <;> exact calculatePH_congr Math _ _ rfl rfl _ _
  · rw [(updateDisplay_frame _).2.2.2.2.2.2.1]
    split_ifs <;> congr 2
  · rw [(updateDisplay_frame _).2.2.2.2.2.2.2.1]
    split_ifs <;> congr 2
  · rw [(updateDisplay_frame _).1]
    split_ifs <;> rfl
  · rw [(updateDisplay_frame _).2.1]
    split_ifs <;> rfl

/-- Clamping at 50 never exceeds 50 and, from a volume in `[0, 50]` with a positive
increment, never goes below the old volume. -/
theorem clamp_bounds (v amount : α) (h50 : v ≤ 50) (hpos : 0 < amount) :
    min (v + amount) 50 ≤ 50 ∧ v ≤ min (v + amount) 50 :=
  ⟨min_le_right _ _, le_min (by linarith) h50⟩

/-- C6: from a state with `0 <= volume.base <= 50`, `addBase(amount)` with `amount > 0`
sets `volume.base` to `min(volume.base + amount, 50)`, which is at most 50 and at least
the old value, and appends exactly one sample, carrying the new volume, to `data`; one
frame of `animate` while `running` with a positive increment `baseAddedInterval * speed`
does the same with that increment. -/
theorem addBase_animate_clamp (Math : MathLib α) (s : State α) (amount : α)
    (_h0 : 0 ≤ s.volume.base) (h50 : s.volume.base ≤ 50) (hpos : 0 < amount) :
    ((addBase Math s amount).volume.base = min (s.volume.base + amount) 50
        ∧ (addBase Math s amount).volume.base ≤ 50
        ∧ s.volume.base ≤ (addBase Math s amount).volume.base
        ∧ (addBase Math s amount).data
            = s.data.push { volume := (addBase Math s amount).volume.base,
                            pH := calculatePH Math s s.volume.acid
                                    (addBase Math s amount).volume.base })
      ∧ (s.running = true → 0 < baseAddedInterval * s.speed →
          (animate Math s).volume.base
              = min (s.volume.base + baseAddedInterval * s.speed) 50
            ∧ (animate Math s).volume.base ≤ 50
            ∧ s.volume.base ≤ (animate Math s).volume.base
            ∧ (animate Math s).data
                = s.data.push { volume := (animate Math s).volume.base,
                                pH := calculatePH Math s s.volume.acid
                                        (animate Math s).volume.base }) := by
  constructor
  · obtain ⟨hvol, -, hdata, -⟩ := addBase_fields Math s amount
    have hb : (addBase Math s amount).volume.base = min (s.volume.base + amount) 50 := by
      rw [hvol]
    refine ⟨hb, ?_, ?_, ?_⟩
    · rw [hb]; exact (clamp_bounds _ _ h50 hpos).1
    · rw [hb]; exact (clamp_bounds _ _ h50 hpos).2
    · rw [hb]; exact hdata
  · intro hr hinc
    obtain ⟨hvol, -, hdata, -⟩ := animate_fields Math s hr
    have hb : (animate Math s).volume.base
        = min (s.volume.base + baseAddedInterval * s.speed) 50 := by
      rw [hvol]
    refine ⟨hb, ?_, ?_, ?_⟩
    · rw [hb]; exact (clamp_bounds _ _ h50 hinc).1
    · rw [hb]; exact (clamp_bounds _ _ h50 hinc).2
    · rw [hb]; exact hdata

/-- The scenario of the specification: from `volume.base = 45`, `addBase(60)` clamps the
volume to exactly 50 and appends one sample at 50 mL; and a running frame of `animate`
at speed 10 from 49.5 mL ends at 50 as well. -/
theorem addBase_animate_clamp_witness :
    ((0 : ℝ) ≤ 45 ∧ (45 : ℝ) ≤ 50 ∧ (0 : ℝ) < 60)
      ∧ (addBase realMath
            { (initialState : State ℝ) with volume := { acid := 25, base := 45 } }
            60).volume.base = 50
      ∧ (addBase realMath
            { (initialState : State ℝ) with volume := { acid := 25, base := 45 } } 60).data
          = (#[] : Array (Point ℝ)).push
              { volume := 50,
                pH := calculatePH realMath (initialState : State ℝ) 25 50 }
      ∧ (animate realMath
            { (initialState : State ℝ) with
                running := true, volume := { acid := 25, base := 49.5 } }).volume.base
          = 50 := by
  have h := addBase_animate_clamp realMath
    { (initialState : State ℝ) with volume := { acid := 25, base := 45 } } 60
    (by norm_num) (by norm_num) (by norm_num)
  have g := addBase_animate_clamp realMath
    { (initialState : State ℝ) with
        running := true, volume := { acid := 25, base := 49.5 } } 1
    (by norm_num) (by norm_num) (by norm_num)
  have hb : (addBase realMath
      { (initialState : State ℝ) with volume := { acid := 25, base := 45 } }
      60).volume.base = 50 := by
    rw [h.1.1]; norm_num
  refine ⟨⟨by norm_num, by norm_num, by norm_num⟩, hb, ?_, ?_⟩
  · rw [h.1.2.2.2, hb]
    simp only [initialState]
    congr 2
  · rw [(g.2 rfl (by norm_num [baseAddedInterval, initialState])).1]
    norm_num [baseAddedInterval, initialState]

/-- C7 (as amended): when `volume.base` is already 50, `addBase(amount)` with
`amount > 0` leaves `volume.base` at 50 and sets `pH` to `calculatePH(volume.acid, 50)`,
but it is not a no-op: it appends one more sample `{volume: 50, pH}` to `data`, which
grows by one, and sets `lastPoint` to that sample. -/
theorem addBase_at_max (Math : MathLib α) (s : State α) (amount : α)
    (hmax : s.volume.base = 50) (hpos : 0 < amount) :
    (addBase Math s amount).volume.base = 50
      ∧ (addBase Math s amount).pH = calculatePH Math s s.volume.acid 50
      ∧ (addBase Math s amount).data
          = s.data.push { volume := 50, pH := calculatePH Math s s.volume.acid 50 }
      ∧ (addBase Math s amount).data.size = s.data.size + 1
      ∧ (addBase Math s amount).lastPoint
          = some { volume := 50, pH := calculatePH Math s s.volume.acid 50 } := by
  obtain ⟨hvol, hpH, hdata, hlast, -⟩ := addBase_fields Math s amount
  have hmin : min (s.volume.base + amount) 50 = 50 := by
    rw [hmax]; exact min_eq_right (by linarith)
  rw [hmin] at hvol hpH hdata hlast
  refine ⟨by rw [hvol], hpH, hdata, ?_, hlast⟩
  rw [hdata, Array.size_push]

/-- A state with `volume.base = 50`, reached by `addBase(60)` after a reset of the default
configuration: a further `addBase(1)` appends a third sample. -/
theorem addBase_at_max_witness :
    (addBase realMath (initializeSimulator realMath (initialState : State ℝ))
        60).volume.base = 50
      ∧ (0 : ℝ) < 1
      ∧ (addBase realMath
            (addBase realMath (initializeSimulator realMath (initialState : State ℝ)) 60)
            1).data.size
          = (addBase realMath (initializeSimulator realMath (initialState : State ℝ))
              60).data.size + 1 := by
  have hb : (addBase realMath (initializeSimulator realMath (initialState : State ℝ))
      60).volume.base = 50 := by
    rw [(addBase_fields realMath _ 60).1]
    simp only [initializeSimulator, updateTitrationType, initialState, updateDisplay,
      calculateEquivalencePoint]
    split_ifs <;> norm_num
  exact ⟨hb, by norm_num, (addBase_at_max realMath _ 1 hb (by norm_num)).2.2.2.1⟩

/-- C7 fails as stated: in the state with `volume.base = 50` reached by `addBase(60)`
after a reset of the default configuration, `addBase(1)` changes `data` (it holds three
samples afterwards instead of two). -/
theorem addBase_at_max_not_noop :
    (addBase realMath (initializeSimulator realMath (initialState : State ℝ))
        60).volume.base = 50
      ∧ (addBase realMath (initializeSimulator realMath (initialState : State ℝ))
          60).data.size = 2
      ∧ (addBase realMath
            (addBase realMath (initializeSimulator realMath (initialState : State ℝ)) 60)
            1).data.size = 3
      ∧ (addBase realMath
            (addBase realMath (initializeSimulator realMath (initialState : State ℝ)) 60)
            1).data
          ≠ (addBase realMath (initializeSimulator realMath (initialState : State ℝ))
              60).data := by
  have hb : (addBase realMath (initializeSimulator realMath (initialState : State ℝ))
      60).volume.base = 50 := by
    rw [(addBase_fields realMath _ 60).1]
    simp only [initializeSimulator, updateTitrationType, initialState, updateDisplay,
      calculateEquivalencePoint]
    split_ifs <;> norm_num
  have h2 : (addBase realMath (initializeSimulator realMath (initialState : State ℝ))
      60).data.size = 2 := by
    rw [(addBase_fields realMath _ 60).2.2.1, Array.size_push]
    simp only [initializeSimulator, updateTitrationType, initialState, updateDisplay,
      calculateEquivalencePoint]
    split_ifs <;> rfl
  have h3 : (addBase realMath
      (addBase realMath (initializeSimulator realMath (initialState : State ℝ)) 60)
      1).data.size = 3 := by
    rw [(addBase_fields realMath _ 1).2.2.1, Array.size_push, h2]
  refine ⟨hb, h2, h3, ?_⟩
  intro h
  rw [h, h2] at h3
  exact absurd h3 (by decide)

end Session

/-! ## The pH engine over the real numbers -/

section Engine

/-- The check is not idle: outside the hypotheses, with a base volume of -25 the total
volume is 0 and the checked evaluation reports the division by it. -/
theorem calculatePHChecked_zero_totalVolume :
    calculatePHChecked realMath (initialState : State ℝ) 25 (-25) = none := by
  norm_num [calculatePHChecked, checkedDiv, initialState]

end Engine

end Titration
